import Mathlib

/-!
# Verification of the FraudShield real-time fraud risk scoring engine

Shallow embedding of the scoring engine of the FraudShield repository:

* `services/fraud-detection/app/services/fraud_engine.py` (`FraudDetectionEngine`)
* `services/fraud-detection/app/core/config.py` (`Settings`)
* `backend/ml-service/app/ml/fraud_detector.py` (`FraudDetector`)
* `backend/ml-service/app/__init__.py` (module level constants)
* `services/ml-service/ml_service/models/ensemble.py` (`EnsembleClassifier`)

Scores, probabilities, amounts and weights are embedded as rationals
(`ℚ`); the Python code computes with floats, but every constant involved
is decimal and the claims under study are about exact branch structure,
not rounding.  Fallible sub-components (the ML client, the calibrator,
individual models) are embedded as `Option`/`Except` values, following
the repository's design note that each such call is a result that either
succeeds or fails.
-/

namespace FraudShield

/-! ## Decision thresholds and the decision function

From `services/fraud-detection/app/core/config.py`: `FRAUD_THRESHOLD_LOW = 30.0`,
`FRAUD_THRESHOLD_MEDIUM = 60.0`, `FRAUD_THRESHOLD_HIGH = 80.0`, exposed by the
`fraud_thresholds` property as `{"low": .., "medium": .., "high": ..}`. -/

/-- The `fraud_thresholds` configuration record (`low`, `medium`, `high`). -/
structure Thresholds where
  low : ℚ
  medium : ℚ
  high : ℚ
  deriving Repr, DecidableEq

/-- Default threshold values from `config.py`. -/
def defaultThresholds : Thresholds := ⟨30, 60, 80⟩

/-- Decision outcomes of `FraudDetectionEngine._make_decision`
(the `DecisionType` enum of `app.models.fraud_assessment`, whose four members
`APPROVE`/`MONITOR`/`REVIEW`/`DECLINE` are visible at the return sites of
`_make_decision` and in `_get_recommended_actions`). -/
inductive DecisionType where
  | approve
  | monitor
  | review
  | decline
  deriving Repr, DecidableEq

/-- Severity order on decisions: APPROVE < MONITOR < REVIEW < DECLINE. -/
def DecisionType.severity : DecisionType → ℕ
  | .approve => 0
  | .monitor => 1
  | .review => 2
  | .decline => 3

/-- Threshold adjustment in `FraudDetectionEngine._make_decision`
(fraud_engine.py lines 214-222): amounts above 1000 multiply all three
thresholds by 0.8. -/
def adjustThresholds (t : Thresholds) (amount : ℚ) : Thresholds :=
  if amount > 1000 then
    ⟨t.low * (8/10), t.medium * (8/10), t.high * (8/10)⟩
  else t

/-- Embeds `FraudDetectionEngine._make_decision` (fraud_engine.py lines 210-231):
compare the risk score against the (possibly tightened) thresholds,
highest band first, each comparison an inclusive lower bound. -/
def make_decision (t : Thresholds) (risk_score amount : ℚ) : DecisionType :=
  let a := adjustThresholds t amount
  if risk_score ≥ a.high then .decline
  else if risk_score ≥ a.medium then .review
  else if risk_score ≥ a.low then .monitor
  else .approve

/-- Risk levels (the `RiskLevel` enum of `app.models.fraud_assessment`; the
spec lists the five members VERY_LOW/LOW/MEDIUM/HIGH/CRITICAL, and
`fraud_assessment.py` confirms that `critical` is a possible value). -/
inductive RiskLevel where
  | very_low
  | low
  | medium
  | high
  | critical
  deriving Repr, DecidableEq

/-- Embeds `FraudDetectionEngine._determine_risk_level` (fraud_engine.py lines
233-244): four inclusive-lower-bound bands over the same three thresholds;
note the function has no branch returning `critical`. -/
def determine_risk_level (t : Thresholds) (risk_score : ℚ) : RiskLevel :=
  if risk_score ≥ t.high then .high
  else if risk_score ≥ t.medium then .medium
  else if risk_score ≥ t.low then .low
  else .very_low

/-! ## Backend ml-service decision generation

From `backend/ml-service/app/__init__.py`: `RISK_LEVELS` and
`DECISION_THRESHOLDS`, and `fraud_detector.py` `_generate_decision`. -/

/-- Embeds `RISK_LEVELS` from `backend/ml-service/app/__init__.py` lines 63-68, as the
insertion-ordered association list the Python dict iterates in. -/
def RISK_LEVELS : List (String × ℚ × ℚ) :=
  [("low", 0, 30), ("medium", 30, 70), ("high", 70, 85), ("critical", 85, 100)]

/-- Embeds `DECISION_THRESHOLDS` from `backend/ml-service/app/__init__.py` lines 71-75. -/
def DECISION_THRESHOLDS : Thresholds := ⟨30, 70, 85⟩

/-- The risk-level loop of `FraudDetector._generate_decision` (fraud_detector.py
lines 429-433): starting from the default `'low'`, take the first band with
`min_score <= risk_score < max_score`, else keep the default. -/
def findRiskLevel (bands : List (String × ℚ × ℚ)) (risk_score : ℚ) : String :=
  match bands with
  | [] => "low"
  | (name, mn, mx) :: rest =>
      if mn ≤ risk_score ∧ risk_score < mx then name
      else findRiskLevel rest risk_score

/-- The decision part of `FraudDetector._generate_decision` (fraud_detector.py
lines 417-426): three outcomes only. -/
def generate_decision_decision (risk_score : ℚ) : String :=
  if risk_score < DECISION_THRESHOLDS.low then "approve"
  else if risk_score < DECISION_THRESHOLDS.medium then "review"
  else "decline"

/-- Embeds `FraudDetector._generate_decision` risk level (fraud_detector.py lines
428-433). -/
def generate_decision_risk_level (risk_score : ℚ) : String :=
  findRiskLevel RISK_LEVELS risk_score

/-! ## Ensemble weights and ensemble probability -/

/-- Embeds `ENSEMBLE_WEIGHTS` from `backend/ml-service/app/__init__.py` lines 78-83. -/
def backendEnsembleWeights : List (String × ℚ) :=
  [("random_forest", 3/10), ("xgboost", 35/100),
   ("neural_network", 1/4), ("isolation_forest", 1/10)]

/-- Embeds `ENSEMBLE_WEIGHTS` from `services/fraud-detection/app/core/config.py`
lines 74-79. -/
def engineEnsembleWeights : List (String × ℚ) :=
  [("random_forest", 3/10), ("xgboost", 4/10),
   ("neural_network", 2/10), ("isolation_forest", 1/10)]

/-- Python `dict.get(name, dflt)` on a string-keyed association list. -/
def dictGet (m : List (String × ℚ)) (name : String) (dflt : ℚ) : ℚ :=
  match m.lookup name with
  | some w => w
  | none => dflt

/-- Embeds `FraudDetector._calculate_ensemble_probability` (fraud_detector.py lines
350-366): accumulate `weighted_sum` and `total_weight` over the model
probabilities with per-model weight `ENSEMBLE_WEIGHTS.get(name, 0.25)`;
empty input returns the 0.1 safe default, zero total weight falls back to
`np.mean` of the probabilities. -/
def calculate_ensemble_probability (weights probs : List (String × ℚ)) : ℚ :=
  if probs.isEmpty then 1/10
  else
    let acc := probs.foldl (fun acc p =>
      let w := dictGet weights p.1 (1/4)
      (acc.1 + w * p.2, acc.2 + w)) ((0 : ℚ), (0 : ℚ))
    if acc.2 = 0 then (probs.map Prod.snd).sum / probs.length
    else acc.1 / acc.2

/-- Embeds `EnsembleClassifier._calculate_ensemble_prediction` (ensemble.py lines
286-302): same accumulation with per-model weight
`model_weights.get(name, 0.1)`, `total_weight > 0` test instead of `= 0`,
and a final clamp of the result to [0,1].  (With an empty input and zero
total weight the Python code divides by `len({}) = 0` and raises; in `ℚ`
the corresponding division is the junk value `0/0 = 0`; no claim exercises
that branch on an empty input.) -/
def calculate_ensemble_prediction (model_weights preds : List (String × ℚ)) : ℚ :=
  let acc := preds.foldl (fun acc p =>
    let w := dictGet model_weights p.1 (1/10)
    (acc.1 + p.2 * w, acc.2 + w)) ((0 : ℚ), (0 : ℚ))
  let e := if acc.2 > 0 then acc.1 / acc.2
           else (preds.map Prod.snd).sum / preds.length
  max 0 (min 1 e)

/-! ## Per-model prediction with graceful degradation (`EnsembleClassifier.predict`) -/

/-- What one model contributes on success: a fraud probability and a
confidence (ensemble.py lines 219-229). -/
structure ModelOutput where
  fraud_prob : ℚ
  confidence : ℚ
  deriving Repr, DecidableEq

/-- The per-model `try`/`except` of `EnsembleClassifier.predict` (ensemble.py
lines 212-243): a failing model (exception, missing model, shape mismatch —
embedded as the `Except.error` variant per the repository design note that
each model call is a result) contributes the neutral probability 0.5 and the
low confidence 0.1. -/
def runModel (outcome : Except Unit ModelOutput) : ModelOutput :=
  match outcome with
  | .ok o => o
  | .error _ => ⟨1/2, 1/10⟩

/-- Embeds `EnsembleClassifier._calculate_ensemble_confidence` (ensemble.py lines
304-330).  `np.std` is a library call on floats; it is passed in as an
abstract `std` function. -/
def calculate_ensemble_confidence (model_weights : List (String × ℚ))
    (std : List ℚ → ℚ)
    (individual_predictions model_confidences : List (String × ℚ)) : ℚ :=
  let acc := individual_predictions.foldl (fun acc p =>
    let w := dictGet model_weights p.1 (1/10)
    let c := dictGet model_confidences p.1 (1/10)
    (acc.1 + c * w, acc.2 + w)) ((0 : ℚ), (0 : ℚ))
  let ec := if acc.2 > 0 then acc.1 / acc.2
            else (model_confidences.map Prod.snd).sum / model_confidences.length
  let agreement := max (1/10) (1 - std (individual_predictions.map Prod.snd))
  max (1/10) (min 1 (ec * agreement))

/-- The result dictionary of `EnsembleClassifier.predict` (ensemble.py lines
260-270), restricted to the fields the claims are about. -/
structure PredictResult where
  probability : ℚ
  confidence : ℚ
  individual_predictions : List (String × ℚ)
  model_confidences : List (String × ℚ)
  models_used : List String
  deriving DecidableEq

/-- Embeds `EnsembleClassifier.predict` (ensemble.py lines 188-277): run every
configured model through the per-model `try`/`except` (`runModel`), collect
probabilities and confidences, then aggregate. -/
def ensemble_predict (model_weights : List (String × ℚ)) (std : List ℚ → ℚ)
    (models : List (String × Except Unit ModelOutput)) : PredictResult :=
  let outputs := models.map (fun m => (m.1, runModel m.2))
  let individual := outputs.map (fun p => (p.1, p.2.fraud_prob))
  let confidences := outputs.map (fun p => (p.1, p.2.confidence))
  { probability := calculate_ensemble_prediction model_weights individual
    confidence := calculate_ensemble_confidence model_weights std individual confidences
    individual_predictions := individual
    model_confidences := confidences
    models_used := individual.map Prod.fst }

/-! ## Anomaly-score remapping -/

/-- The isolation-forest branch of `EnsembleClassifier.predict` (ensemble.py
lines 219-224): `fraud_prob = max(0, min(1, (1 - anomaly_score) / 2))`. -/
def isolation_forest_fraud_prob (anomaly_score : ℚ) : ℚ :=
  max 0 (min 1 ((1 - anomaly_score) / 2))

/-- Embeds `FraudDetector._detect_anomalies` remap (fraud_detector.py line 379):
`anomaly_score = max(0, min(100, (0.5 - anomaly_score_raw) * 100))`,
on the 0-100 scale. -/
def detect_anomalies_score (raw : ℚ) : ℚ :=
  max 0 (min 100 ((1/2 - raw) * 100))

/-- The remap formula exactly as the spec words it (spec §4.2):
`clamp((0.5 - raw_score) / 2, 0, 1)`.  Stated for comparison with the two
source formulas above. -/
def specAnomalyRemap (raw : ℚ) : ℚ :=
  max 0 (min 1 ((1/2 - raw) / 2))

/-! ## Risk calibration fallback (`FraudDetector._calibrate_risk_score`) -/

/-- The dictionary returned by the calibration step, restricted to the fields
the claims are about. -/
structure CalibrationResult where
  final_score : ℚ
  confidence : ℚ
  calibration_factors : List String
  deriving Repr, DecidableEq

/-- The raw fallback blend (fraud_detector.py lines 402-406):
`ensemble_probability*40 + behavioral_score*0.4 + anomaly_score*0.2`. -/
def fallbackBlend (ensemble_probability behavioral_score anomaly_score : ℚ) : ℚ :=
  ensemble_probability * 40 + behavioral_score * (4/10) + anomaly_score * (2/10)

/-- Embeds `FraudDetector._calibrate_risk_score` (fraud_detector.py lines 387-411):
the `RiskCalibrator.calibrate_risk` call either succeeds with a result
(`some r`, passed through) or raises (`none`); on `none` the deterministic
fallback is used — blend clamped via `min(100, max(0, raw))`, confidence
0.7, factors `['fallback_calculation']` — and no exception escapes. -/
def calibrate_risk_score (calibrator : Option CalibrationResult)
    (ensemble_probability behavioral_score anomaly_score : ℚ) : CalibrationResult :=
  match calibrator with
  | some r => r
  | none =>
      { final_score :=
          min 100 (max 0 (fallbackBlend ensemble_probability behavioral_score anomaly_score))
        confidence := 7/10
        calibration_factors := ["fallback_calculation"] }

/-! ## Stage-level fallbacks -/

/-- The dictionary returned by `FraudDetector._run_ensemble_models`
(fraud_detector.py lines 313-328). -/
structure EnsembleModelsOutput where
  individual_predictions : List (String × ℚ)
  individual_scores : List (String × ℚ)
  ensemble_prediction : ℕ
  ensemble_probability : ℚ
  deriving Repr, DecidableEq

/-- Embeds `FraudDetector._run_ensemble_models` (fraud_detector.py lines 281-328):
on success (`some`) the collected per-model predictions and probabilities
are aggregated; if the whole stage raises (`none`) the safe default has
`ensemble_probability = 0.1`. -/
def run_ensemble_models (weights : List (String × ℚ))
    (outcome : Option (List (String × ℚ) × List (String × ℚ))) : EnsembleModelsOutput :=
  match outcome with
  | some (preds, probs) =>
      let p := calculate_ensemble_probability weights probs
      ⟨preds, probs, if p > 1/2 then 1 else 0, p⟩
  | none => ⟨[], [], 0, 1/10⟩

/-- The prediction dictionary consumed by `FraudDetectionEngine`
(fraud_engine.py lines 148-162, 192-208). -/
structure MLPredictions where
  ensemble_probability : ℚ
  confidence : ℚ
  model_version : String
  individual_predictions : List (String × ℚ)
  deriving Repr, DecidableEq

/-- Embeds `FraudDetectionEngine._get_ml_predictions` (fraud_engine.py lines
192-208): the ML service call either succeeds (`some`, passed through) or
raises (`none`), in which case the engine falls back to
`{"ensemble_probability": 0.5, "confidence": 0.3, "model_version":
"fallback", "individual_predictions": {}}`. -/
def get_ml_predictions (outcome : Option MLPredictions) : MLPredictions :=
  match outcome with
  | some p => p
  | none => ⟨1/2, 3/10, "fallback", []⟩

/-! ## Assessment cache -/

/-- Python `int()` conversion on a number: truncation toward zero. -/
def pyInt (q : ℚ) : ℤ := if 0 ≤ q then ⌊q⌋ else ⌈q⌉

/-- Embeds `FraudDetectionEngine._get_cache_key` (fraud_engine.py lines 392-396):
`normalized_amount = int(transaction_data.amount / 10) * 10` (round to the
nearest 10 below), then `f"fraud_assessment:{customer_id}:{normalized_amount}"`. -/
def get_cache_key (customer_id : String) (amount : ℚ) : String :=
  "fraud_assessment:" ++ customer_id ++ ":" ++ toString (pyInt (amount / 10) * 10)

/-- Embeds `FEATURE_CACHE_TTL` from `services/fraud-detection/app/core/config.py`
line 67 (seconds). -/
def FEATURE_CACHE_TTL : ℕ := 300

/-- Modelled from the spec: the backing `CacheService`
(`app/services/cache_service.py` is not in the source tree; only its calls
from `fraud_engine.py` are).  Spec §4.5 gives the contract
`get(fingerprint) -> RiskAssessment?` / `put(fingerprint, assessment, ttl)`
with `put(fp, A); get(fp) == A` within TTL and `get(fp) == None` after
expiry (spec §8), last-writer-wins on overwrite.  A store is a list of
(key, value, absolute expiry time) with the newest write first. -/
abbrev Cache (α : Type) : Type := List (String × α × ℕ)

/-- Modelled from the spec: `CacheService.set(key, value, expire_seconds)` —
record the value under the key with expiry `now + ttl`. -/
def cacheSet {α : Type} (c : Cache α) (key : String) (value : α)
    (now ttl : ℕ) : Cache α :=
  (key, value, now + ttl) :: c

/-- Modelled from the spec: `CacheService.get(key)` at absolute time `now` —
the newest write under the key wins; it is returned while unexpired and is a
miss afterwards. -/
def cacheGet {α : Type} (c : Cache α) (key : String) (now : ℕ) : Option α :=
  match c with
  | [] => none
  | (k, v, e) :: rest =>
      if k = key then (if now < e then some v else none)
      else cacheGet rest key now

/-- Embeds `FraudDetectionEngine._check_cache` (fraud_engine.py lines 365-376):
look up the transaction's fingerprint. -/
def check_cache {α : Type} (c : Cache α) (customer_id : String) (amount : ℚ)
    (now : ℕ) : Option α :=
  cacheGet c (get_cache_key customer_id amount) now

/-- Embeds `FraudDetectionEngine._cache_result` (fraud_engine.py lines 378-390):
store the result under the transaction's fingerprint with
`FEATURE_CACHE_TTL`. -/
def cache_result {α : Type} (c : Cache α) (customer_id : String) (amount : ℚ)
    (value : α) (now : ℕ) : Cache α :=
  cacheSet c (get_cache_key customer_id amount) value now FEATURE_CACHE_TTL

/-! ## MD5 (for `_generate_assessment_id`)

`FraudDetectionEngine._generate_assessment_id` hashes its content string with
`hashlib.md5`; the algorithm is embedded here in full over byte lists, with
32-bit words as `ℕ` reduced `% 2^32`. -/

/-- The constant 2^32. -/
def w32 : ℕ := 4294967296

/-- 32-bit bitwise complement. -/
def bnot32 (x : ℕ) : ℕ := x ^^^ 4294967295

/-- 32-bit left rotation (input assumed < 2^32). -/
def rotl32 (x n : ℕ) : ℕ := ((x <<< n) ||| (x >>> (32 - n))) % w32

/-- The 64 MD5 sine-derived constants `K`. -/
def md5K : List ℕ :=
  [0xd76aa478, 0xe8c7b756, 0x242070db, 0xc1bdceee,
   0xf57c0faf, 0x4787c62a, 0xa8304613, 0xfd469501,
   0x698098d8, 0x8b44f7af, 0xffff5bb1, 0x895cd7be,
   0x6b901122, 0xfd987193, 0xa679438e, 0x49b40821,
   0xf61e2562, 0xc040b340, 0x265e5a51, 0xe9b6c7aa,
   0xd62f105d, 0x02441453, 0xd8a1e681, 0xe7d3fbc8,
   0x21e1cde6, 0xc33707d6, 0xf4d50d87, 0x455a14ed,
   0xa9e3e905, 0xfcefa3f8, 0x676f02d9, 0x8d2a4c8a,
   0xfffa3942, 0x8771f681, 0x6d9d6122, 0xfde5380c,
   0xa4beea44, 0x4bdecfa9, 0xf6bb4b60, 0xbebfbc70,
   0x289b7ec6, 0xeaa127fa, 0xd4ef3085, 0x04881d05,
   0xd9d4d039, 0xe6db99e5, 0x1fa27cf8, 0xc4ac5665,
   0xf4292244, 0x432aff97, 0xab9423a7, 0xfc93a039,
   0x655b59c3, 0x8f0ccc92, 0xffeff47d, 0x85845dd1,
   0x6fa87e4f, 0xfe2ce6e0, 0xa3014314, 0x4e0811a1,
   0xf7537e82, 0xbd3af235, 0x2ad7d2bb, 0xeb86d391]

/-- The 64 MD5 per-round left-rotation amounts `s`. -/
def md5S : List ℕ :=
  [7, 12, 17, 22, 7, 12, 17, 22, 7, 12, 17, 22, 7, 12, 17, 22,
   5, 9, 14, 20, 5, 9, 14, 20, 5, 9, 14, 20, 5, 9, 14, 20,
   4, 11, 16, 23, 4, 11, 16, 23, 4, 11, 16, 23, 4, 11, 16, 23,
   6, 10, 15, 21, 6, 10, 15, 21, 6, 10, 15, 21, 6, 10, 15, 21]

/-- The MD5 round mixing function for step `i` on registers `b c d`. -/
def md5F (i b c d : ℕ) : ℕ :=
  if i < 16 then (b &&& c) ||| (bnot32 b &&& d)
  else if i < 32 then (d &&& b) ||| (bnot32 d &&& c)
  else if i < 48 then b ^^^ c ^^^ d
  else c ^^^ (b ||| bnot32 d)

/-- The MD5 message-word index for step `i`. -/
def md5G (i : ℕ) : ℕ :=
  if i < 16 then i
  else if i < 32 then (5 * i + 1) % 16
  else if i < 48 then (3 * i + 5) % 16
  else (7 * i) % 16

/-- One MD5 step: rotate the register tuple, mixing in word `M[g i]`. -/
def md5Step (M : List ℕ) (st : ℕ × ℕ × ℕ × ℕ) (i : ℕ) : ℕ × ℕ × ℕ × ℕ :=
  let a := st.1; let b := st.2.1; let c := st.2.2.1; let d := st.2.2.2
  let f := (md5F i b c d + a + md5K.getD i 0 + M.getD (md5G i) 0) % w32
  (d, (b + rotl32 f (md5S.getD i 0)) % w32, b, c)

/-- Encodes `v` as `n` little-endian bytes. -/
def toLEBytes (n v : ℕ) : List ℕ :=
  match n with
  | 0 => []
  | n + 1 => (v % 256) :: toLEBytes n (v / 256)

/-- Little-endian byte list to number. -/
def fromLEBytes (bs : List ℕ) : ℕ :=
  match bs with
  | [] => 0
  | b :: rest => b + 256 * fromLEBytes rest

/-- Split a byte list into 64-byte chunks (structural recursion on a fuel
bound by the length, so that the kernel can evaluate it). -/
def chunksAux (fuel : ℕ) (bs : List ℕ) : List (List ℕ) :=
  match fuel with
  | 0 => []
  | fuel + 1 => if bs = [] then [] else bs.take 64 :: chunksAux fuel (bs.drop 64)

/-- Split a byte list into 64-byte chunks. -/
def chunk64 (bs : List ℕ) : List (List ℕ) := chunksAux bs.length bs

/-- The sixteen 32-bit little-endian words of a 64-byte chunk. -/
def words16 (chunk : List ℕ) : List ℕ :=
  (List.range 16).map (fun j => fromLEBytes ((chunk.drop (4 * j)).take 4))

/-- Process one 64-byte chunk: 64 steps, then add into the running state. -/
def md5ProcessChunk (st : ℕ × ℕ × ℕ × ℕ) (chunk : List ℕ) : ℕ × ℕ × ℕ × ℕ :=
  let M := words16 chunk
  let r := (List.range 64).foldl (md5Step M) st
  ((st.1 + r.1) % w32, (st.2.1 + r.2.1) % w32,
   (st.2.2.1 + r.2.2.1) % w32, (st.2.2.2 + r.2.2.2) % w32)

/-- MD5 padding: append `0x80`, zeros to 56 mod 64, then the original bit
length as 8 little-endian bytes. -/
def md5Pad (msg : List ℕ) : List ℕ :=
  let len := msg.length
  let padZeros := (119 - len % 64) % 64
  msg ++ 128 :: List.replicate padZeros 0 ++ toLEBytes 8 ((len * 8) % 2 ^ 64)

/-- The MD5 initial state `(A, B, C, D)`. -/
def md5Init : ℕ × ℕ × ℕ × ℕ :=
  (0x67452301, 0xefcdab89, 0x98badcfe, 0x10325476)

/-- MD5 digest of a byte list, as 16 bytes. -/
def md5Bytes (msg : List ℕ) : List ℕ :=
  let r := (chunk64 (md5Pad msg)).foldl md5ProcessChunk md5Init
  toLEBytes 4 r.1 ++ toLEBytes 4 r.2.1 ++ toLEBytes 4 r.2.2.1 ++ toLEBytes 4 r.2.2.2

/-- Lowercase hex digit. -/
def hexDigit (n : ℕ) : Char :=
  if n < 10 then Char.ofNat (48 + n) else Char.ofNat (87 + n)

/-- Two lowercase hex characters of a byte. -/
def byteToHex (b : ℕ) : List Char :=
  [hexDigit (b / 16), hexDigit (b % 16)]

/-- The 32-character lowercase hex digest, as `hashlib.md5(..).hexdigest()`. -/
def md5Hex (msg : List ℕ) : String :=
  ⟨((md5Bytes msg).map byteToHex).flatten⟩

/-- Bytes of a string (the engine's content strings are ASCII). -/
def strBytes (s : String) : List ℕ := s.data.map Char.toNat

/-- Embeds `FraudDetectionEngine._generate_assessment_id` (fraud_engine.py lines
360-363): `md5(f"{transaction_id}_{timestamp}_{time.time()}")` truncated to
its first 16 hex characters.  The wall-clock reading `time.time()` enters as
`clock`, already interpolated to its string form. -/
def generate_assessment_id (transaction_id timestamp clock : String) : String :=
  (md5Hex (strBytes (transaction_id ++ "_" ++ timestamp ++ "_" ++ clock))).take 16

/-! ## The assessment pipeline (`FraudDetectionEngine.assess_transaction`) -/

/-- The fields of `TransactionData` the engine reads (`app.models.
fraud_assessment` is not in the source tree; `fraud_engine.py` reads
`transaction_id`, `timestamp`, `customer_id` and `amount`).  The timestamp
is kept in its interpolated string form. -/
structure TransactionData where
  transaction_id : String
  timestamp : String
  customer_id : String
  amount : ℚ
  deriving Repr, DecidableEq

/-- Embeds `RiskFactor` as constructed in fraud_engine.py (factor, score,
description, weight). -/
structure RiskFactor where
  factor : String
  score : ℚ
  description : String
  weight : ℚ
  deriving Repr, DecidableEq

/-- The feature attributes `_analyze_feature_risks` probes with `hasattr`
(fraud_engine.py lines 284-315); an absent attribute is `none`. -/
structure Features where
  geo_risk_score : Option ℚ
  device_risk_score : Option ℚ
  email_risk_score : Option ℚ
  deriving Repr, DecidableEq

/-- Embeds `FraudDetectionEngine._analyze_feature_risks` (fraud_engine.py lines
284-315).  The human-readable descriptions are kept verbatim. -/
def analyze_feature_risks (f : Features) : List RiskFactor :=
  (match f.geo_risk_score with
   | some g =>
       if g > 30 then
         [⟨"geographic_risk", g, "Transaction from high-risk geographic location", 2/10⟩]
       else []
   | none => []) ++
  (match f.device_risk_score with
   | some d =>
       if d > 40 then
         [⟨"device_risk", d, "Suspicious device fingerprint detected", 15/100⟩]
       else []
   | none => []) ++
  (match f.email_risk_score with
   | some e =>
       if e > 50 then
         [⟨"email_risk", e, "High-risk email domain or pattern", 1/10⟩]
       else []
   | none => [])

/-- Embeds `FraudDetectionEngine._generate_risk_factors` (fraud_engine.py lines
246-282): behavioral factor above 50, one factor per individual model
probability above 0.5 with the configured ensemble weight (default 0.1),
the feature risks, sorted descending by score (stably, like Python's
`list.sort(key=.., reverse=True)`) and truncated to the top 10.  The
interpolated number inside the behavioral description and the
`.replace('_',' ').title()` pretty-printing of model names are elided from
the description strings; factor ids, scores and weights are exact. -/
def generate_risk_factors (weights : List (String × ℚ)) (f : Features)
    (behavioral_score : ℚ) (individual_predictions : List (String × ℚ)) :
    List RiskFactor :=
  let behavioral :=
    if behavioral_score > 50 then
      [⟨"behavioral_anomaly", behavioral_score,
        "Unusual behavioral patterns detected", 3/10⟩]
    else []
  let mlFactors :=
    (individual_predictions.filter (fun p => p.2 > 1/2)).map
      (fun p => ⟨"ml_model_" ++ p.1, p.2 * 100,
                 p.1 ++ " model indicates fraud risk", dictGet weights p.1 (1/10)⟩)
  let factors := behavioral ++ mlFactors ++ analyze_feature_risks f
  (factors.mergeSort (fun x y => y.score ≤ x.score)).take 10

/-- The decision-keyed base actions of
`FraudDetectionEngine._get_recommended_actions` (fraud_engine.py lines
326-345). -/
def decisionActions (decision : DecisionType) : List String :=
  match decision with
  | .decline =>
      ["Decline transaction immediately", "Add customer to watchlist",
       "Review for potential fraud ring activity"]
  | .review =>
      ["Hold for manual review", "Contact customer for verification",
       "Request additional authentication"]
  | .monitor =>
      ["Allow transaction but monitor closely", "Flag for next transaction review",
       "Track behavioral patterns"]
  | .approve => ["Approve transaction"]

/-- The per-factor extra action of `_get_recommended_actions`
(fraud_engine.py lines 348-356). -/
def factorAction (f : RiskFactor) : List String :=
  if f.factor = "behavioral_anomaly" then
    ["Verify customer identity through additional channels"]
  else if f.factor.startsWith "ml_model" then
    ["Review model prediction details for " ++ f.factor]
  else if f.factor = "geographic_risk" then
    ["Verify billing/shipping address accuracy"]
  else if f.factor = "device_risk" then
    ["Request device verification or two-factor authentication"]
  else []

/-- Embeds `FraudDetectionEngine._get_recommended_actions` (fraud_engine.py lines
317-358): base actions for the decision, extra actions for the top three
risk factors, duplicates removed.  Python's final `list(set(actions))`
has an unspecified but per-process-deterministic order; it is embedded as a
deterministic duplicate removal. -/
def get_recommended_actions (decision : DecisionType)
    (risk_factors : List RiskFactor) : List String :=
  ((decisionActions decision) ++ (risk_factors.take 3).flatMap factorAction).dedup

/-- The `FraudAssessmentResult` constructed by `assess_transaction`
(fraud_engine.py lines 148-162). -/
structure FraudAssessmentResult where
  transaction_id : String
  assessment_id : String
  risk_score : ℚ
  risk_level : RiskLevel
  decision : DecisionType
  fraud_probability : ℚ
  behavioral_score : ℚ
  processing_time_ms : ℕ
  risk_factors : List RiskFactor
  recommended_actions : List String
  model_version : String
  confidence : ℚ
  timestamp : String
  deriving Repr, DecidableEq

/-- Embeds `FraudDetectionEngine.assess_transaction` with the cache bypassed
(fraud_engine.py lines 80-179, steps 1-7 and the result construction).
The deterministic sub-component outputs are passed in: `behavioral_score`
(behavioral analyzer), `ml` (ML service predictions) and `risk_score` (risk
calibrator output, a function of the former on any fixed calibrator).  The
three wall-clock readings are `clock` (`time.time()` hashed into the
assessment id), `processing_ms` and `now_ts` (result timestamp). -/
def assess_transaction (t : Thresholds) (weights : List (String × ℚ))
    (tx : TransactionData) (f : Features) (behavioral_score : ℚ)
    (ml : MLPredictions) (risk_score : ℚ)
    (clock : String) (processing_ms : ℕ) (now_ts : String) :
    FraudAssessmentResult :=
  let decision := make_decision t risk_score tx.amount
  let risk_factors :=
    generate_risk_factors weights f behavioral_score ml.individual_predictions
  { transaction_id := tx.transaction_id
    assessment_id := generate_assessment_id tx.transaction_id tx.timestamp clock
    risk_score := risk_score
    risk_level := determine_risk_level t risk_score
    decision := decision
    fraud_probability := ml.ensemble_probability
    behavioral_score := behavioral_score
    processing_time_ms := processing_ms
    risk_factors := risk_factors
    recommended_actions := get_recommended_actions decision risk_factors
    model_version := ml.model_version
    confidence := ml.confidence
    timestamp := now_ts }

/-- Embeds `assess_transaction` with the cache in play (fraud_engine.py lines
103-107 and 164-165): a fingerprint hit within TTL returns the cached
result unchanged; a miss computes and stores.  Returns the result and the
updated cache. -/
def assess_with_cache (c : Cache FraudAssessmentResult) (t : Thresholds)
    (weights : List (String × ℚ)) (tx : TransactionData) (f : Features)
    (behavioral_score : ℚ) (ml : MLPredictions) (risk_score : ℚ)
    (clock : String) (processing_ms : ℕ) (now_ts : String) (now : ℕ) :
    FraudAssessmentResult × Cache FraudAssessmentResult :=
  match check_cache c tx.customer_id tx.amount now with
  | some r => (r, c)
  | none =>
      let r := assess_transaction t weights tx f behavioral_score ml risk_score
                 clock processing_ms now_ts
      (r, cache_result c tx.customer_id tx.amount r now)

/-! ## Helper lemmas -/

/-- Unfolded form of `make_decision` for a low-value transaction. -/
theorem make_decision_low_value (t : Thresholds) (s amount : ℚ)
    (hamt : ¬ amount > 1000) :
    make_decision t s amount =
      if s ≥ t.high then DecisionType.decline
      else if s ≥ t.medium then DecisionType.review
      else if s ≥ t.low then DecisionType.monitor
      else DecisionType.approve := by
  unfold make_decision adjustThresholds
  rw [if_neg hamt]

/-- Lookup in the empty dict returns the default. -/
theorem dictGet_nil (name : String) (d : ℚ) : dictGet [] name d = d := rfl

/-- Evaluation rule for `dictGet` on a head entry. -/
theorem dictGet_cons (k : String) (v : ℚ) (m : List (String × ℚ))
    (name : String) (d : ℚ) :
    dictGet ((k, v) :: m) name d = if name = k then v else dictGet m name d := by
  by_cases h : name = k
  · simp [dictGet, List.lookup, h]
  · have hb : (name == k) = false := by simpa using h
    simp [dictGet, List.lookup, hb, h]

/-- A clamp `min hi (max 0 x)` is monotone in `x`. -/
theorem clamp_mono (hi x y : ℚ) (h : x ≤ y) :
    min hi (max 0 x) ≤ min hi (max 0 y) :=
  min_le_min le_rfl (max_le_max le_rfl h)

/-- A clamp `max 0 (min hi x)` is monotone in `x`. -/
theorem clamp_mono' (hi x y : ℚ) (h : x ≤ y) :
    max 0 (min hi x) ≤ max 0 (min hi y) :=
  max_le_max le_rfl (min_le_min le_rfl h)

/-- Strict clamp comparison: if neither point is pinned at the blocking
bound, the order of the raw values survives the clamp. -/
theorem clamp_strict (hi x y : ℚ) (hxy : x < y)
    (hy : max 0 (min hi y) < hi) (hx : 0 < max 0 (min hi x)) :
    max 0 (min hi x) < max 0 (min hi y) := by
  simp only [max_def, min_def] at *
  split_ifs at * <;> linarith

/-! ## C1: decision bands on a low-value transaction -/

/-- Claim C1. For ordered thresholds `low < medium < high`
(`T_approve < T_review < T_decline`) and a low-value transaction
(amount not above 1000, so `_make_decision` leaves the thresholds
unadjusted), the decision is APPROVE exactly below `low`, MONITOR exactly on
`[low, medium)`, REVIEW exactly on `[medium, high)` and DECLINE exactly at
or above `high` — four bands with inclusive lower bounds — and each of the
four decisions is producible at some score. -/
theorem decision_bands (t : Thresholds) (s amount : ℚ)
    (h₁ : t.low < t.medium) (h₂ : t.medium < t.high) (hamt : ¬ amount > 1000) :
    (make_decision t s amount = DecisionType.approve ↔ s < t.low) ∧
    (make_decision t s amount = DecisionType.monitor ↔ t.low ≤ s ∧ s < t.medium) ∧
    (make_decision t s amount = DecisionType.review ↔ t.medium ≤ s ∧ s < t.high) ∧
    (make_decision t s amount = DecisionType.decline ↔ t.high ≤ s) ∧
    (∃ s₁ s₂ s₃ s₄ : ℚ,
        make_decision t s₁ amount = DecisionType.approve ∧
        make_decision t s₂ amount = DecisionType.monitor ∧
        make_decision t s₃ amount = DecisionType.review ∧
        make_decision t s₄ amount = DecisionType.decline) := by
  refine ⟨?_, ?_, ?_, ?_, ⟨t.low - 1, t.low, t.medium, t.high, ?_, ?_, ?_, ?_⟩⟩ <;>
    rw [make_decision_low_value t _ amount hamt] <;>
    split_ifs <;> simp_all [not_lt]
  all_goals try intro _
  all_goals linarith

/-- Witness for C1 at the default configuration: score 0 on a 500-unit
transaction is approved. -/
theorem decision_bands_witness :
    make_decision defaultThresholds 0 500 = DecisionType.approve :=
  (decision_bands defaultThresholds 0 500 (by norm_num [defaultThresholds])
    (by norm_num [defaultThresholds]) (by norm_num)).1.mpr
    (by norm_num [defaultThresholds])

/-! ## C2: risk-level bands -/

/-- Claim C2 counterexample. The claimed five-level ordered partition of the
0-100 axis does not exist in the code: the backend's band table maps 99 to
`critical` but the larger score 100 back to the default `low` (its
`critical` band is the half-open `[85,100)`), and the fraud engine's
`_determine_risk_level` yields only `high` even at the very top of the
axis — `critical` has no producing branch. -/
theorem risk_level_bands_counterexample :
    generate_decision_risk_level 99 = "critical" ∧
    generate_decision_risk_level 100 = "low" ∧
    determine_risk_level defaultThresholds 100 = RiskLevel.high := by
  refine ⟨by decide, by decide, by decide⟩

/-- Claim C2 amended. The fraud engine assigns exactly one of the four levels
VERY_LOW/LOW/MEDIUM/HIGH via ordered inclusive-lower-bound bands over the
configured thresholds, each of the four reachable, and never CRITICAL; the
backend maps `[0,30) → low`, `[30,70) → medium`, `[70,85) → high`,
`[85,100) → critical` and defaults to `low` for every score at or above
100.  No implementation makes all five levels reachable. -/
theorem risk_level_bands_amended (t : Thresholds) (s : ℚ)
    (h₁ : t.low < t.medium) (h₂ : t.medium < t.high) :
    determine_risk_level t s ≠ RiskLevel.critical ∧
    (determine_risk_level t s = RiskLevel.very_low ↔ s < t.low) ∧
    (determine_risk_level t s = RiskLevel.low ↔ t.low ≤ s ∧ s < t.medium) ∧
    (determine_risk_level t s = RiskLevel.medium ↔ t.medium ≤ s ∧ s < t.high) ∧
    (determine_risk_level t s = RiskLevel.high ↔ t.high ≤ s) ∧
    (∃ s₁ s₂ s₃ s₄ : ℚ,
        determine_risk_level t s₁ = RiskLevel.very_low ∧
        determine_risk_level t s₂ = RiskLevel.low ∧
        determine_risk_level t s₃ = RiskLevel.medium ∧
        determine_risk_level t s₄ = RiskLevel.high) ∧
    (∀ x : ℚ, 0 ≤ x → x < 100 →
        generate_decision_risk_level x =
          if x < 30 then "low" else if x < 70 then "medium"
          else if x < 85 then "high" else "critical") ∧
    (∀ x : ℚ, 100 ≤ x → generate_decision_risk_level x = "low") := by
  have hback : ∀ x : ℚ, generate_decision_risk_level x =
      if 0 ≤ x ∧ x < 30 then "low"
      else if 30 ≤ x ∧ x < 70 then "medium"
      else if 70 ≤ x ∧ x < 85 then "high"
      else if 85 ≤ x ∧ x < 100 then "critical"
      else "low" := by
    intro x
    simp [generate_decision_risk_level, RISK_LEVELS, findRiskLevel]
  refine ⟨?_, ?_, ?_, ?_, ?_, ⟨t.low - 1, t.low, t.medium, t.high, ?_, ?_, ?_, ?_⟩,
    ?_, ?_⟩
  pick_goal 10
  · intro x hx0 hx100
    rw [hback]
    split_ifs <;> simp_all [not_lt]
  pick_goal 10
  · intro x hx
    rw [hback]
    split_ifs <;> simp_all [not_lt] <;> linarith
  all_goals unfold determine_risk_level
  all_goals split_ifs <;> simp_all [not_lt]
  all_goals try intro _
  all_goals linarith

/-- Witness for C2 amended at the default configuration: score 50 is LOW and
is not CRITICAL. -/
theorem risk_level_bands_amended_witness :
    determine_risk_level defaultThresholds 50 = RiskLevel.low ∧
    determine_risk_level defaultThresholds 50 ≠ RiskLevel.critical :=
  ⟨(risk_level_bands_amended defaultThresholds 50 (by norm_num [defaultThresholds])
      (by norm_num [defaultThresholds])).2.2.1.mpr (by norm_num [defaultThresholds]),
   (risk_level_bands_amended defaultThresholds 50 (by norm_num [defaultThresholds])
      (by norm_num [defaultThresholds])).1⟩

/-! ## C6: high-value transactions are never more lenient -/

/-- Claim C6. With nonnegative thresholds (the configuration validator enforces
[0,100]), at every risk score a transaction above the 1000 high-value cutoff
never receives a strictly more lenient decision (in the order APPROVE <
MONITOR < REVIEW < DECLINE) than an otherwise-identical low-value
transaction, because `_make_decision` multiplies all three thresholds by the
tightening factor 0.8 for it. -/
theorem high_value_stricter (t : Thresholds) (s ahi alo : ℚ)
    (h₁ : 0 ≤ t.low) (h₂ : 0 ≤ t.medium) (h₃ : 0 ≤ t.high)
    (hhi : ahi > 1000) (hlo : ¬ alo > 1000) :
    adjustThresholds t ahi =
      ⟨t.low * (8/10), t.medium * (8/10), t.high * (8/10)⟩ ∧
    DecisionType.severity (make_decision t s alo)
      ≤ DecisionType.severity (make_decision t s ahi) := by
  constructor
  · unfold adjustThresholds; rw [if_pos hhi]
  · unfold make_decision adjustThresholds
    rw [if_pos hhi, if_neg hlo]
    dsimp only
    split_ifs <;> simp [DecisionType.severity] <;> linarith

/-- Witness for C6 at the default configuration: score 79 is REVIEW on a
500-unit transaction but already DECLINE-or-equal on a 2000-unit one. -/
theorem high_value_stricter_witness :
    DecisionType.severity (make_decision defaultThresholds 79 500)
      ≤ DecisionType.severity (make_decision defaultThresholds 79 2000) :=
  (high_value_stricter defaultThresholds 79 2000 500 (by norm_num [defaultThresholds])
    (by norm_num [defaultThresholds]) (by norm_num [defaultThresholds])
    (by norm_num) (by norm_num)).2

/-! ## C5: anomaly-score remapping -/

/-- Claim C5 counterexample. At raw anomaly decision value 0 the ensemble
classifier contributes fraud probability 0.5 (`clamp((1 - r)/2, 0, 1)`) and
the backend detector the score 50 of 100 (`clamp((0.5 - r)*100, 0, 100)`),
while the formula claimed by the spec, `clamp((0.5 - r)/2, 0, 1)`, yields
0.25: the claimed formula matches neither implementation. -/
theorem anomaly_remap_counterexample :
    isolation_forest_fraud_prob 0 = 1/2 ∧
    detect_anomalies_score 0 = 50 ∧
    specAnomalyRemap 0 = 1/4 ∧
    isolation_forest_fraud_prob 0 ≠ specAnomalyRemap 0 ∧
    detect_anomalies_score 0 / 100 ≠ specAnomalyRemap 0 := by
  norm_num [isolation_forest_fraud_prob, detect_anomalies_score,
    specAnomalyRemap, min_def, max_def]

/-- Claim C5 amended. The ensemble classifier maps a raw anomaly decision
value `r` to the fraud likelihood `clamp((1 - r)/2, 0, 1)` and the backend
detector maps it to the anomaly score `clamp((0.5 - r)·100, 0, 100)`; in
both, more-anomalous inputs (lower raw score) map to a higher value —
strictly so until the clamp bounds are reached. -/
theorem anomaly_remap_amended :
    (∀ r : ℚ, isolation_forest_fraud_prob r = max 0 (min 1 ((1 - r) / 2))) ∧
    (∀ r₁ r₂ : ℚ, r₁ < r₂ →
        isolation_forest_fraud_prob r₂ ≤ isolation_forest_fraud_prob r₁) ∧
    (∀ r₁ r₂ : ℚ, r₁ < r₂ → isolation_forest_fraud_prob r₁ < 1 →
        0 < isolation_forest_fraud_prob r₂ →
        isolation_forest_fraud_prob r₂ < isolation_forest_fraud_prob r₁) ∧
    (∀ r : ℚ, detect_anomalies_score r = max 0 (min 100 ((1/2 - r) * 100))) ∧
    (∀ r₁ r₂ : ℚ, r₁ < r₂ →
        detect_anomalies_score r₂ ≤ detect_anomalies_score r₁) ∧
    (∀ r₁ r₂ : ℚ, r₁ < r₂ → detect_anomalies_score r₁ < 100 →
        0 < detect_anomalies_score r₂ →
        detect_anomalies_score r₂ < detect_anomalies_score r₁) := by
  refine ⟨fun r => rfl, ?_, ?_, fun r => rfl, ?_, ?_⟩
  · intro r₁ r₂ h
    exact clamp_mono' 1 _ _ (by linarith)
  · intro r₁ r₂ h h1 h0
    exact clamp_strict 1 _ _ (by linarith) h1 h0
  · intro r₁ r₂ h
    exact clamp_mono' 100 _ _ (by linarith)
  · intro r₁ r₂ h h1 h0
    exact clamp_strict 100 _ _ (by linarith) h1 h0

/-- Witness for C5 amended: at raw values 0 and 1/2 of the ensemble
classifier the order is strict. -/
theorem anomaly_remap_amended_witness :
    isolation_forest_fraud_prob 1 ≤ isolation_forest_fraud_prob 0 ∧
    isolation_forest_fraud_prob (1/2) < isolation_forest_fraud_prob 0 :=
  ⟨anomaly_remap_amended.2.1 0 1 (by norm_num),
   anomaly_remap_amended.2.2.1 0 (1/2) (by norm_num)
     (by norm_num [isolation_forest_fraud_prob, min_def, max_def])
     (by norm_num [isolation_forest_fraud_prob, min_def, max_def])⟩

/-! ## C7: calibration fallback -/

/-- Claim C7. On every input where the risk calibrator raises (`none`), the
assessment does not fail: the final score is the deterministic blend
`ensemble_probability*40 + behavioral_score*0.4 + anomaly_score*0.2`
clamped to [0,100], the reported confidence is exactly 0.7 and the
`"fallback_calculation"` flag is recorded in the calibration factors;
on every successful calibration the result passes through unchanged. -/
theorem calibration_fallback_props (p b a : ℚ) :
    (calibrate_risk_score none p b a).final_score
        = min 100 (max 0 (p * 40 + b * (4/10) + a * (2/10))) ∧
    0 ≤ (calibrate_risk_score none p b a).final_score ∧
    (calibrate_risk_score none p b a).final_score ≤ 100 ∧
    (calibrate_risk_score none p b a).confidence = 7/10 ∧
    (calibrate_risk_score none p b a).calibration_factors
        = ["fallback_calculation"] ∧
    ∀ r, calibrate_risk_score (some r) p b a = r := by
  refine ⟨rfl, ?_, ?_, rfl, rfl, fun r => rfl⟩
  · exact le_min (by norm_num) (le_max_left _ _)
  · exact min_le_left _ _

/-! ## C3: ensemble probability is a weighted average by total weight -/

/-- The accumulation loop of `_calculate_ensemble_probability` computes the
weighted sum and the total weight. -/
theorem prob_foldl (weights l : List (String × ℚ)) (a b : ℚ) :
    (l.foldl (fun acc p =>
        let w := dictGet weights p.1 (1/4)
        (acc.1 + w * p.2, acc.2 + w)) (a, b))
      = (a + (l.map (fun p => dictGet weights p.1 (1/4) * p.2)).sum,
         b + (l.map (fun p => dictGet weights p.1 (1/4))).sum) := by
  induction l generalizing a b with
  | nil => simp
  | cons hd tl ih =>
      rw [List.foldl_cons, ih]
      simp only [List.map_cons, List.sum_cons, Prod.mk.injEq]
      constructor <;> ring

/-- Claim C3. For every non-empty probability map, the ensemble probability of
`_calculate_ensemble_probability` equals the sum of weight-times-probability
divided by the total weight, where a model absent from the configured
weights gets the default weight 0.25 — for any weight configuration, summing
to 1 or not — and when the total weight is zero it equals the unweighted
mean of the individual probabilities. -/
theorem ensemble_weighted_average (weights probs : List (String × ℚ))
    (hne : probs ≠ []) :
    ((probs.map (fun p => dictGet weights p.1 (1/4))).sum ≠ 0 →
      calculate_ensemble_probability weights probs
        = (probs.map (fun p => dictGet weights p.1 (1/4) * p.2)).sum
            / (probs.map (fun p => dictGet weights p.1 (1/4))).sum) ∧
    ((probs.map (fun p => dictGet weights p.1 (1/4))).sum = 0 →
      calculate_ensemble_probability weights probs
        = (probs.map Prod.snd).sum / probs.length) := by
  have hempty : probs.isEmpty = false := by
    cases probs with
    | nil => exact absurd rfl hne
    | cons hd tl => rfl
  constructor <;> intro hW <;>
    rw [calculate_ensemble_probability, if_neg (by simp [hempty])] <;>
    simp only [prob_foldl, zero_add]
  · rw [if_neg hW]
  · rw [if_pos hW]

/-- Witness for C3: a concrete configured model (weight 0.35... here
`random_forest`, weight 0.3) together with an unconfigured model (default
weight 0.25) normalizes by the total weight 0.55; and a zero-total-weight
configuration falls back to the unweighted mean. -/
theorem ensemble_weighted_average_witness :
    calculate_ensemble_probability backendEnsembleWeights
        [("random_forest", 1/2), ("mystery_model", 1)] = 8/11 ∧
    calculate_ensemble_probability [("m", 0)] [("m", 3/4)] = 3/4 := by
  constructor
  · rw [(ensemble_weighted_average backendEnsembleWeights
        [("random_forest", 1/2), ("mystery_model", 1)] (by simp)).1
        (by simp only [backendEnsembleWeights, dictGet_cons, dictGet_nil,
              String.reduceEq, if_false, if_true, List.map_cons, List.map_nil,
              List.sum_cons, List.sum_nil]
            norm_num)]
    simp only [backendEnsembleWeights, dictGet_cons, dictGet_nil,
      String.reduceEq, if_false, if_true, List.map_cons, List.map_nil,
      List.sum_cons, List.sum_nil]
    norm_num
  · rw [(ensemble_weighted_average [("m", 0)] [("m", 3/4)] (by simp)).2
        (by simp only [dictGet_cons, dictGet_nil, String.reduceEq, if_false,
              if_true, List.map_cons, List.map_nil, List.sum_cons, List.sum_nil]
            norm_num)]
    simp only [List.map_cons, List.map_nil, List.sum_cons, List.sum_nil,
      List.length_cons, List.length_nil]
    norm_num

/-! ## C4: single-model failure degrades gracefully -/

/-- Claim C4. For every configuration in which exactly one of the N models
fails (the `Except.error` variant: exception, missing model, shape
mismatch) while the others succeed, `EnsembleClassifier.predict` still
returns a complete result — an entry for every model, no exception — with
the failing model's contribution replaced by the neutral probability 0.5
and the low confidence 0.1, and every other model's outputs unchanged. -/
theorem single_model_failure (model_weights : List (String × ℚ))
    (std : List ℚ → ℚ) (pre post : List (String × ModelOutput)) (name : String) :
    (ensemble_predict model_weights std
        (pre.map (fun p => (p.1, Except.ok p.2)) ++
          (name, (Except.error () : Except Unit ModelOutput)) ::
            post.map (fun p => (p.1, Except.ok p.2)))).individual_predictions
      = pre.map (fun p => (p.1, p.2.fraud_prob)) ++
          (name, (1:ℚ)/2) :: post.map (fun p => (p.1, p.2.fraud_prob)) ∧
    (ensemble_predict model_weights std
        (pre.map (fun p => (p.1, Except.ok p.2)) ++
          (name, (Except.error () : Except Unit ModelOutput)) ::
            post.map (fun p => (p.1, Except.ok p.2)))).model_confidences
      = pre.map (fun p => (p.1, p.2.confidence)) ++
          (name, (1:ℚ)/10) :: post.map (fun p => (p.1, p.2.confidence)) ∧
    (ensemble_predict model_weights std
        (pre.map (fun p => (p.1, Except.ok p.2)) ++
          (name, (Except.error () : Except Unit ModelOutput)) ::
            post.map (fun p => (p.1, Except.ok p.2)))).models_used
      = pre.map (fun p => p.1) ++ name :: post.map (fun p => p.1) := by
  refine ⟨?_, ?_, ?_⟩ <;>
    simp [ensemble_predict, runModel, Function.comp_def]

/-! ## C8: coarse fingerprint sharing within the TTL window -/

/-- Same customer and same coarse amount bucket (`⌊amount/10⌋`) give the same
fingerprint (for the nonnegative amounts of valid transactions, Python's
truncating `int()` is the floor). -/
theorem get_cache_key_bucket (cid : String) (a₁ a₂ : ℚ)
    (h₁ : 0 ≤ a₁) (h₂ : 0 ≤ a₂) (hb : ⌊a₁ / 10⌋ = ⌊a₂ / 10⌋) :
    get_cache_key cid a₁ = get_cache_key cid a₂ := by
  unfold get_cache_key pyInt
  rw [if_pos (div_nonneg h₁ (by norm_num)), if_pos (div_nonneg h₂ (by norm_num)),
    hb]

/-- A value stored under a transaction's fingerprint is found by a lookup
under an equal fingerprint before the TTL expires. -/
theorem check_cache_after_store {α : Type} (c : Cache α) (cid₁ cid₂ : String)
    (a₁ a₂ : ℚ) (v : α) (now t' : ℕ)
    (hkey : get_cache_key cid₂ a₂ = get_cache_key cid₁ a₁)
    (hts : t' < now + FEATURE_CACHE_TTL) :
    check_cache (cache_result c cid₁ a₁ v now) cid₂ a₂ t' = some v := by
  unfold check_cache cache_result cacheSet
  rw [hkey]
  simp [cacheGet, hts]

/-- Claim C8. For two transactions of the same customer whose amounts fall in
the same coarse bucket (`⌊amount/10⌋` equal), the engine derives the same
cache fingerprint, and — after a first assessment that missed and filled the
cache — a second assessment within the TTL window returns the first's cached
`FraudAssessmentResult` verbatim instead of recomputing, whatever inputs its
own recomputation would have used. -/
theorem cache_bucket_reuse (c : Cache FraudAssessmentResult) (t : Thresholds)
    (weights : List (String × ℚ)) (tx₁ tx₂ : TransactionData) (f₁ f₂ : Features)
    (b₁ b₂ : ℚ) (ml₁ ml₂ : MLPredictions) (rs₁ rs₂ : ℚ) (ck₁ ck₂ : String)
    (pm₁ pm₂ : ℕ) (ts₁ ts₂ : String) (now t' : ℕ)
    (hcid : tx₁.customer_id = tx₂.customer_id)
    (ha₁ : 0 ≤ tx₁.amount) (ha₂ : 0 ≤ tx₂.amount)
    (hb : ⌊tx₁.amount / 10⌋ = ⌊tx₂.amount / 10⌋)
    (hmiss : check_cache c tx₁.customer_id tx₁.amount now = none)
    (hts : t' < now + FEATURE_CACHE_TTL) :
    get_cache_key tx₁.customer_id tx₁.amount
      = get_cache_key tx₂.customer_id tx₂.amount ∧
    (assess_with_cache
        (assess_with_cache c t weights tx₁ f₁ b₁ ml₁ rs₁ ck₁ pm₁ ts₁ now).2
        t weights tx₂ f₂ b₂ ml₂ rs₂ ck₂ pm₂ ts₂ t').1
      = (assess_with_cache c t weights tx₁ f₁ b₁ ml₁ rs₁ ck₁ pm₁ ts₁ now).1 := by
  have hk2 : get_cache_key tx₂.customer_id tx₂.amount
      = get_cache_key tx₁.customer_id tx₁.amount := by
    rw [← hcid]
    exact (get_cache_key_bucket tx₁.customer_id tx₁.amount tx₂.amount ha₁ ha₂ hb).symm
  refine ⟨hk2.symm, ?_⟩
  simp only [assess_with_cache, hmiss]
  rw [check_cache_after_store c tx₁.customer_id tx₂.customer_id tx₁.amount
    tx₂.amount _ now t' hk2 hts]

/-- Witness for C8: amounts 105 and 109 share bucket 10; the second
assessment at time 299 of a TTL window opened at time 0 returns the first
result even though every other input of its own pipeline differs. -/
theorem cache_bucket_reuse_witness :
    (assess_with_cache
        (assess_with_cache ([] : Cache FraudAssessmentResult) defaultThresholds
          engineEnsembleWeights ⟨"t1", "ts1", "c1", 105⟩ ⟨none, none, none⟩ 40
          ⟨1/2, 3/10, "v1", []⟩ 50 "100.0" 5 "T1" 0).2
        defaultThresholds engineEnsembleWeights ⟨"t2", "ts2", "c1", 109⟩
        ⟨none, none, none⟩ 60 ⟨1/4, 1/2, "v2", []⟩ 70 "200.0" 7 "T2" 299).1
      = (assess_with_cache ([] : Cache FraudAssessmentResult) defaultThresholds
          engineEnsembleWeights ⟨"t1", "ts1", "c1", 105⟩ ⟨none, none, none⟩ 40
          ⟨1/2, 3/10, "v1", []⟩ 50 "100.0" 5 "T1" 0).1 :=
  (cache_bucket_reuse [] defaultThresholds engineEnsembleWeights
    ⟨"t1", "ts1", "c1", 105⟩ ⟨"t2", "ts2", "c1", 109⟩ ⟨none, none, none⟩
    ⟨none, none, none⟩ 40 60 ⟨1/2, 3/10, "v1", []⟩ ⟨1/4, 1/2, "v2", []⟩ 50 70
    "100.0" "200.0" 5 7 "T1" "T2" 0 299 rfl (by norm_num) (by norm_num)
    (by norm_num) rfl (by norm_num [FEATURE_CACHE_TTL])).2

/-! ## C9: idempotence up to clock-derived fields -/

set_option maxRecDepth 100000 in
/-- Claim C9 counterexample. Two runs of the pipeline on identical transaction,
behavioral and model outputs — with even the result timestamp and the
processing latency equal — still differ in the `assessment_id` field,
because `_generate_assessment_id` hashes the `time.time()` reading: at
clock readings 1000.0 and 1000.5 the md5-derived ids differ.  So the results
are not identical in every field except timestamp and latency. -/
theorem assessment_id_depends_on_clock :
    (assess_transaction defaultThresholds engineEnsembleWeights
        ⟨"tx1", "2024-01-01T00:00:00", "c1", 100⟩ ⟨none, none, none⟩ 40
        ⟨1/2, 3/10, "v1", []⟩ 50 "1000.0" 5 "T").timestamp
      = (assess_transaction defaultThresholds engineEnsembleWeights
        ⟨"tx1", "2024-01-01T00:00:00", "c1", 100⟩ ⟨none, none, none⟩ 40
        ⟨1/2, 3/10, "v1", []⟩ 50 "1000.5" 5 "T").timestamp ∧
    (assess_transaction defaultThresholds engineEnsembleWeights
        ⟨"tx1", "2024-01-01T00:00:00", "c1", 100⟩ ⟨none, none, none⟩ 40
        ⟨1/2, 3/10, "v1", []⟩ 50 "1000.0" 5 "T").processing_time_ms
      = (assess_transaction defaultThresholds engineEnsembleWeights
        ⟨"tx1", "2024-01-01T00:00:00", "c1", 100⟩ ⟨none, none, none⟩ 40
        ⟨1/2, 3/10, "v1", []⟩ 50 "1000.5" 5 "T").processing_time_ms ∧
    (assess_transaction defaultThresholds engineEnsembleWeights
        ⟨"tx1", "2024-01-01T00:00:00", "c1", 100⟩ ⟨none, none, none⟩ 40
        ⟨1/2, 3/10, "v1", []⟩ 50 "1000.0" 5 "T").assessment_id
      ≠ (assess_transaction defaultThresholds engineEnsembleWeights
        ⟨"tx1", "2024-01-01T00:00:00", "c1", 100⟩ ⟨none, none, none⟩ 40
        ⟨1/2, 3/10, "v1", []⟩ 50 "1000.5" 5 "T").assessment_id := by
  refine ⟨rfl, rfl, ?_⟩
  decide

/-- Claim C9 amended. Assessing the same transaction twice with the cache
bypassed, given identical model and behavioral outputs on both runs, yields
results identical in every field except the timestamp, the processing
latency and the assessment id (which hashes the wall clock). -/
theorem idempotent_up_to_clock (t : Thresholds) (weights : List (String × ℚ))
    (tx : TransactionData) (f : Features) (b : ℚ) (ml : MLPredictions) (rs : ℚ)
    (ck₁ ck₂ : String) (pm₁ pm₂ : ℕ) (ts₁ ts₂ : String) :
    (assess_transaction t weights tx f b ml rs ck₁ pm₁ ts₁).transaction_id
      = (assess_transaction t weights tx f b ml rs ck₂ pm₂ ts₂).transaction_id ∧
    (assess_transaction t weights tx f b ml rs ck₁ pm₁ ts₁).risk_score
      = (assess_transaction t weights tx f b ml rs ck₂ pm₂ ts₂).risk_score ∧
    (assess_transaction t weights tx f b ml rs ck₁ pm₁ ts₁).risk_level
      = (assess_transaction t weights tx f b ml rs ck₂ pm₂ ts₂).risk_level ∧
    (assess_transaction t weights tx f b ml rs ck₁ pm₁ ts₁).decision
      = (assess_transaction t weights tx f b ml rs ck₂ pm₂ ts₂).decision ∧
    (assess_transaction t weights tx f b ml rs ck₁ pm₁ ts₁).fraud_probability
      = (assess_transaction t weights tx f b ml rs ck₂ pm₂ ts₂).fraud_probability ∧
    (assess_transaction t weights tx f b ml rs ck₁ pm₁ ts₁).behavioral_score
      = (assess_transaction t weights tx f b ml rs ck₂ pm₂ ts₂).behavioral_score ∧
    (assess_transaction t weights tx f b ml rs ck₁ pm₁ ts₁).risk_factors
      = (assess_transaction t weights tx f b ml rs ck₂ pm₂ ts₂).risk_factors ∧
    (assess_transaction t weights tx f b ml rs ck₁ pm₁ ts₁).recommended_actions
      = (assess_transaction t weights tx f b ml rs ck₂ pm₂ ts₂).recommended_actions ∧
    (assess_transaction t weights tx f b ml rs ck₁ pm₁ ts₁).model_version
      = (assess_transaction t weights tx f b ml rs ck₂ pm₂ ts₂).model_version ∧
    (assess_transaction t weights tx f b ml rs ck₁ pm₁ ts₁).confidence
      = (assess_transaction t weights tx f b ml rs ck₂ pm₂ ts₂).confidence :=
  ⟨rfl, rfl, rfl, rfl, rfl, rfl, rfl, rfl, rfl, rfl⟩

/-! ## C10: total-outage fallbacks -/

/-- Claim C10. If the whole ensemble stage fails, or no individual model
probability is available, the assessment proceeds with ensemble probability
0.1 — lower than both the neutral 0.5 substituted per-model and the
orchestrating engine's own ML-stage fallback of 0.5 — so a total model
outage biases the blended risk score toward approval (the blend is monotone
in the ensemble probability). -/
theorem total_outage_bias :
    (∀ w : List (String × ℚ),
        (run_ensemble_models w none).ensemble_probability = 1/10) ∧
    (∀ w : List (String × ℚ), calculate_ensemble_probability w [] = 1/10) ∧
    (get_ml_predictions none).ensemble_probability = 1/2 ∧
    ((1 : ℚ)/10 < 1/2) ∧
    (∀ b a : ℚ, (calibrate_risk_score none (1/10) b a).final_score
        ≤ (calibrate_risk_score none (1/2) b a).final_score) := by
  refine ⟨fun w => rfl, fun w => rfl, rfl, by norm_num, ?_⟩
  intro b a
  exact clamp_mono 100 _ _ (by simp only [fallbackBlend]; linarith)

end FraudShield
